import Mathlib

/-!
Verification of the RIVM ETL proof-of-concept (`mapApp.py`, `transformApp.py`).

The development shallowly embeds the data model and the operations of the
repository: tables are ordered lists of named columns of cells, the Schema
Registry `CDM_FIELDS` is the literal 17-entry list from the source, the
Transform Engine `apply_transformations` is a fold over the registry that
threads the source DataFrame and the accumulated output DataFrame through an
explicit state, exactly mirroring the per-field loop of the Python code.
Pandas date parsing (`pd.to_datetime` with coercing errors) is an external
library; the engine is parameterized by the per-cell parse function, of which
`parseISODate` is a concrete executable instance used for evaluation.
-/

namespace RIVM

/-- Model of a pandas cell: a missing value (`NaN`/`NaT`/`pd.NA`) or a string value. -/
inductive Cell where
  | missing : Cell
  | val : String → Cell
deriving DecidableEq, Repr

/-- A column is the sequence of its cells, by row index. -/
abbrev Column := List Cell

/-- Model of a DataFrame: ordered named columns. -/
abbrev Table := List (String × Column)

/-- Number of rows of a DataFrame (`len(df)`): length of its columns. -/
def numRows (df : Table) : Nat :=
  match df with
  | [] => 0
  | (_, c) :: _ => c.length

/-- A rectangular DataFrame: every column has the common row count. -/
def Rectangular (df : Table) : Prop :=
  ∀ p ∈ df, p.2.length = numRows df

instance (df : Table) : Decidable (Rectangular df) := by
  unfold Rectangular
  infer_instance

/-- The heterogeneous `values` field of a Field Definition: either a free-form
format hint string or an ordered list of allowed categorical values. -/
inductive ValuesSpec where
  | hint : String → ValuesSpec
  | allowed : List String → ValuesSpec
deriving DecidableEq, Repr

/-- A Schema Registry entry (one dict of the `CDM_FIELDS` list). -/
structure FieldDef where
  id : String
  name : String
  data_type : String
  values : ValuesSpec
  preferred_standard : Option String
  description : String
deriving DecidableEq, Repr

/-- The Schema Registry: the literal `CDM_FIELDS` list of `transformApp.py`
(lines 9-28), 17 ordered Field Definitions. -/
def CDM_FIELDS : List FieldDef := [
  { id := "1A", name := "Patient ID", data_type := "uuid",
    values := ValuesSpec.hint "", preferred_standard := none,
    description := "A unique patient identification number." },
  { id := "2A", name := "Primary Intervention", data_type := "categorical",
    values := ValuesSpec.allowed ["HIPPR", "TOTKNIE", "HMKNIE"], preferred_standard := none,
    description := "Primary total hip replacement or primary total or hemi knee replacement performed within surveillance period." },
  { id := "3A", name := "Date of Surgery", data_type := "date",
    values := ValuesSpec.hint "dd/mm/yyyy", preferred_standard := none,
    description := "Date the primary hip or knee replacement was performed." },
  { id := "4A", name := "Operation Side", data_type := "categorical",
    values := ValuesSpec.allowed ["left", "right"], preferred_standard := none,
    description := "Was the surgery performed in the left or right joint?" },
  { id := "5A", name := "Previous Intervention", data_type := "bool",
    values := ValuesSpec.allowed ["yes", "no"], preferred_standard := none,
    description := "Previous operations on the hip or knee joint in question that are considered exclusion criteria (i.e., not arthroscopy, meniscectomy or cruciate ligament reconstruction)." },
  { id := "6A", name := "Discharge Date", data_type := "date",
    values := ValuesSpec.hint "dd/mm/yyyy", preferred_standard := some "SCT (442864001)",
    description := "Discharge date of admission in which indicator intervention took place." },
  { id := "7A", name := "Readmission Date", data_type := "date",
    values := ValuesSpec.hint "dd/mm/yyyy", preferred_standard := none,
    description := "Date of admission of any readmission to the treating specialty indicator procedure within 120 days after the main procedure." },
  { id := "8A", name := "Treating Specialty", data_type := "categorical",
    values := ValuesSpec.allowed ["orthopedic surgeon", "general surgeon", "trauma surgeon"],
    preferred_standard := some "SCT (69280009)",
    description := "Specialty where the patient has been readmitted." },
  { id := "9A", name := "Reoperation Date", data_type := "date",
    values := ValuesSpec.hint "dd/mm/yyyy", preferred_standard := none,
    description := "Date of any necessary orthopedic reoperation within 120 days after the indicator procedure." },
  { id := "10A", name := "Reoperation Specialty", data_type := "categorical",
    values := ValuesSpec.allowed ["orthopedic surgeon", "general surgeon", "trauma surgeon"],
    preferred_standard := some "SCT (69280009)",
    description := "Specialty that performed the reoperation." },
  { id := "11A", name := "Culture Collection Date", data_type := "date",
    values := ValuesSpec.hint "dd/mm/yyyy", preferred_standard := none,
    description := "Date of culture for microbiological examination from day 1 after the indicator procedure up to and including 120 days after the main procedure." },
  { id := "12A", name := "Sample number culture collection", data_type := "number",
    values := ValuesSpec.hint "", preferred_standard := some "SCT (260385009)",
    description := "Identification number of the material taken for microbiological examination within 120 days after the main procedure." },
  { id := "13A", name := "Breeding Material", data_type := "categorical",
    values := ValuesSpec.allowed ["blood (sample)", "wound fluid sample (sample)"],
    preferred_standard := some "SCT (61594008)",
    description := "The material taken for microbiological examination within 120 days after the main procedure." },
  { id := "14A", name := "Result", data_type := "categorical",
    values := ValuesSpec.allowed ["positive", "negative"], preferred_standard := some "SCT (260385009)",
    description := "Result of the microbiological examination within 120 days after the main procedure." },
  { id := "15A", name := "Antibiotic Code", data_type := "number",
    values := ValuesSpec.hint "ATCDDD - ATC/DDD Index (fhi.no)", preferred_standard := some "SCT (281789004)",
    description := "Code of any antibiotics used in the period up to 120 days after the primary hip or knee prosthesis." },
  { id := "16A", name := "Prescription Start Date", data_type := "date",
    values := ValuesSpec.hint "dd/mm/yyyy", preferred_standard := some "SCT (413946009)",
    description := "Start date of any use of antibiotics in the period up to 120 days after the primary hip or knee prosthesis." },
  { id := "17A", name := "Prescription End Date", data_type := "date",
    values := ValuesSpec.hint "dd/mm/yyyy", preferred_standard := some "SCT (413947000)",
    description := "End date of any use of antibiotics in the period up to 120 days after the primary hip or knee prosthesis." }
]

/-- The optional `transformation` dict of a mapping Entry: it may or may not
carry a `value_mapping` key (a substitution table with string keys and values). -/
structure Transformation where
  value_mapping : Option (List (String × String))
deriving DecidableEq, Repr

/-- An Entry of the Mapping Document: the dict value stored per source column,
`\x7b"cdm_field": ..., "transformation": ...\x7d` with `transformation` optional. -/
structure Entry where
  cdm_field : String
  transformation : Option Transformation
deriving DecidableEq, Repr

/-- A Mapping Document: a dict from source column name to Entry, modelled as an
association list in insertion order (Python dict iteration order). -/
abbrev Mappings := List (String × Entry)

/-- A calendar date as produced by the date parser. -/
structure CalDate where
  year : Nat
  month : Nat
  day : Nat
deriving DecidableEq, Repr

/-- Zero-pad a number to two digits (strftime `%d` / `%m`). -/
def pad2 (n : Nat) : String :=
  if n < 10 then "0" ++ toString n else toString n

/-- Zero-pad a number to four digits (strftime `%Y`). -/
def pad4 (n : Nat) : String :=
  if n < 10 then "000" ++ toString n
  else if n < 100 then "00" ++ toString n
  else if n < 1000 then "0" ++ toString n
  else toString n

/-- Render a calendar date in the `%d/%m/%Y` (dd/mm/yyyy) format. -/
def formatDDMMYYYY (d : CalDate) : String :=
  pad2 d.day ++ "/" ++ pad2 d.month ++ "/" ++ pad4 d.year

/-- Per-cell behavior of `pd.to_datetime(col, errors="coerce").dt.strftime("%d/%m/%Y")`
(transformApp.py line 88): a missing cell stays missing (`NaT` renders as `NaN`),
a parseable value is reformatted to dd/mm/yyyy, an unparseable value is coerced
to `NaT` and hence becomes missing. Parameterized by the library parse function. -/
def toDatetimeCell (parse : String → Option CalDate) : Cell → Cell
  | Cell.missing => Cell.missing
  | Cell.val s =>
    match parse s with
    | some d => Cell.val (formatDDMMYYYY d)
    | none => Cell.missing

/-- First-match lookup in a string-keyed substitution table (Python dict lookup). -/
def lookupStr (l : List (String × String)) (k : String) : Option String :=
  (l.find? (fun p => p.1 == k)).map (fun p => p.2)

/-- Per-cell behavior of `col.map(value_mapping).fillna(col)` (transformApp.py
line 96): a value present as a key is replaced by its image; a value absent from
the mapping maps to `NaN` and `fillna` restores the original; a missing cell
maps to `NaN` and `fillna` restores the original missing cell. -/
def mapCell (vm : List (String × String)) : Cell → Cell
  | Cell.missing => Cell.missing
  | Cell.val s =>
    match lookupStr vm s with
    | some t => Cell.val t
    | none => Cell.val s

/-- Column lookup in a DataFrame (`original_col in df.columns` / `df[original_col]`). -/
def lookupColumn (df : Table) (name : String) : Option Column :=
  (df.find? (fun p => p.1 == name)).map (fun p => p.2)

/-- The scan of transformApp.py lines 68-73: iterate the mapping document in
dict order and take the first item whose `cdm_field` equals the field name
(the loop breaks at the first match). -/
def findOriginalCol (mappings : Mappings) (cdm_field : String) : Option (String × Entry) :=
  mappings.find? (fun p => p.2.cdm_field == cdm_field)

/-- The `value_mapping` block of transformApp.py lines 93-96, applied to the
working column: a substitution runs only when the Entry's transformation dict
carries a `value_mapping` key. Python dict keys are unique, so the Entry found
by the line 68-73 scan is the Entry `mappings.get(original_col)` retrieves at
line 83. -/
def applyValueMapping (entry : Entry) (c : Column) : Column :=
  match entry.transformation with
  | some t =>
    match t.value_mapping with
    | some vm => c.map (mapCell vm)
    | none => c
  | none => c

/-- Whether an Entry's transformation dict carries a `value_mapping` key
(`"value_mapping" in transformation`, transformApp.py line 94). -/
def hasValueMapping (entry : Entry) : Bool :=
  match entry.transformation with
  | some t => t.value_mapping.isSome
  | none => false

/-- The per-field body of the loop in `apply_transformations` (transformApp.py
lines 64-98): locate the mapped source column, degrade to an all-missing column
when it is absent, otherwise reformat dates for date-typed fields and apply the
value substitution when one is declared. -/
def computeColumn (parse : String → Option CalDate) (df : Table) (mappings : Mappings)
    (field : FieldDef) : Column :=
  match findOriginalCol mappings field.name with
  | none => List.replicate (numRows df) Cell.missing
  | some (originalCol, entry) =>
    match lookupColumn df originalCol with
    | none => List.replicate (numRows df) Cell.missing
    | some colData =>
      applyValueMapping entry
        (if field.data_type == "date" then colData.map (toDatetimeCell parse) else colData)

/-- Pointwise form of the per-cell pipeline of a matched field: date step then
value substitution, by row index. -/
def cellStep (parse : String → Option CalDate) (field : FieldDef) (entry : Entry)
    (c : Cell) : Cell :=
  match entry.transformation with
  | some t =>
    match t.value_mapping with
    | some vm => mapCell vm (if field.data_type == "date" then toDatetimeCell parse c else c)
    | none => if field.data_type == "date" then toDatetimeCell parse c else c
  | none => if field.data_type == "date" then toDatetimeCell parse c else c

/-- The mutable state of one `apply_transformations` run: the source DataFrame
`df` and the output DataFrame `transformed_df` being built up column by column. -/
structure EngineState where
  df : Table
  transformed_df : Table
deriving DecidableEq, Repr

/-- One iteration of the `for field in CDM_FIELDS` loop: reads the source
DataFrame held in the state and appends one named column to the output
DataFrame (`transformed_df[cdm_field] = col_data`, transformApp.py line 98;
CDM field names are pairwise distinct so assignment is append). -/
def stepField (parse : String → Option CalDate) (mappings : Mappings)
    (st : EngineState) (field : FieldDef) : EngineState :=
  { st with transformed_df :=
      st.transformed_df ++ [(field.name, computeColumn parse st.df mappings field)] }

/-- The whole loop of `apply_transformations`, starting from an empty output
DataFrame (transformApp.py line 61). -/
def runEngine (parse : String → Option CalDate) (df : Table) (mappings : Mappings) :
    EngineState :=
  CDM_FIELDS.foldl (stepField parse mappings) { df := df, transformed_df := [] }

/-- The Transform Engine `apply_transformations(df, mappings)` (transformApp.py
lines 59-100): the output DataFrame produced by the loop. -/
def apply_transformations (parse : String → Option CalDate) (df : Table)
    (mappings : Mappings) : Table :=
  (runEngine parse df mappings).transformed_df

/-- Digit value of a character, if it is a decimal digit. -/
def charDigit? (c : Char) : Option Nat :=
  if c.isDigit then some (c.toNat - 48) else none

/-- Accumulate the decimal value of a digit character list. -/
def digitsToNatAux : List Char → Nat → Option Nat
  | [], acc => some acc
  | c :: cs, acc =>
    match charDigit? c with
    | some d => digitsToNatAux cs (acc * 10 + d)
    | none => none

/-- Decimal value of a nonempty all-digit character list. -/
def digitsToNat? (cs : List Char) : Option Nat :=
  match cs with
  | [] => none
  | _ :: _ => digitsToNatAux cs 0

/-- Split a character list on a separator character. -/
def splitOnChar (sep : Char) : List Char → List (List Char)
  | [] => [[]]
  | c :: cs =>
    if c = sep then [] :: splitOnChar sep cs
    else
      match splitOnChar sep cs with
      | [] => [[c]]
      | g :: gs => (c :: g) :: gs

/-- A concrete executable instance of the date parse function: ISO
`yyyy-mm-dd` input (separator character 45 is the hyphen), the shape used by
the specification's examples. -/
def parseISODate (s : String) : Option CalDate :=
  match splitOnChar (Char.ofNat 45) s.data with
  | [y, mo, d] =>
    match digitsToNat? y, digitsToNat? mo, digitsToNat? d with
    | some yn, some mn, some dn =>
      if 1 ≤ mn ∧ mn ≤ 12 ∧ 1 ≤ dn ∧ dn ≤ 31 then some (CalDate.mk yn mn dn) else none
    | _, _, _ => none
  | _ => none

/-- Sheet selection for `pd.read_excel`: by sheet name or by sheet index. -/
inductive SheetSelector where
  | byName : String → SheetSelector
  | byIndex : Nat → SheetSelector
deriving DecidableEq, Repr

/-- Model of `pd.read_excel` on a workbook (an ordered list of named sheets):
select a sheet by name or by index; pandas default `sheet_name=0` is index 0. -/
def read_excel (sheets : List (String × Table)) : SheetSelector → Option Table
  | SheetSelector.byName s => (sheets.find? (fun p => p.1 == s)).map (fun p => p.2)
  | SheetSelector.byIndex i => (sheets.get? i).map (fun p => p.2)

/-- The `.xls`/`.xlsx` branch of `ingest_file` (mapApp.py line 37):
`pd.read_excel(uploaded_file, sheet_name=sheet_name if sheet_name else 0)` —
a supplied sheet name selects that sheet, and with no sheet selector the call
falls back to sheet index 0. -/
def ingest_file_excel (sheets : List (String × Table)) (sheet_name : Option String) :
    Option Table :=
  read_excel sheets
    (match sheet_name with
     | some s => SheetSelector.byName s
     | none => SheetSelector.byIndex 0)

/-- The `.xls`/`.xlsx` branch of `read_data` (transformApp.py line 40):
`pd.read_excel(uploaded_file)` with no sheet argument at all, which is the
pandas default sheet index 0. -/
def read_data_excel (sheets : List (String × Table)) : Option Table :=
  read_excel sheets (SheetSelector.byIndex 0)

/-- The YAML value layer for mapping documents: scalar strings and
string-keyed maps in document key order. Text serialization by `yaml.dump` /
`yaml.safe_load` is the library's faithful round trip on this tree for plain
string keys and values, so save and load are modelled on the tree itself. -/
inductive Yaml where
  | str : String → Yaml
  | map : List (String × Yaml) → Yaml

/-- Key lookup in a YAML mapping node (Python dict `.get`). -/
def yamlLookup (l : List (String × Yaml)) (k : String) : Option Yaml :=
  (l.find? (fun p => p.1 == k)).map (fun p => p.2)

/-- YAML shape of a `value_mapping` substitution table. -/
def encodeVM (vm : List (String × String)) : Yaml :=
  Yaml.map (vm.map (fun p => (p.1, Yaml.str p.2)))

/-- YAML shape of one Entry as built by the Mapping Builder (mapApp.py lines
137-155): a dict with key `cdm_field` and, when a transformation is present, a
key `transformation` holding an optional `value_mapping` dict. -/
def encodeEntry (e : Entry) : Yaml :=
  Yaml.map
    (("cdm_field", Yaml.str e.cdm_field) ::
      (match e.transformation with
       | none => []
       | some t =>
         [("transformation",
            Yaml.map
              (match t.value_mapping with
               | none => []
               | some vm => [("value_mapping", encodeVM vm)]))]))

/-- YAML shape of a whole Mapping Document (source column name to Entry). -/
def encodeMappings (doc : Mappings) : Yaml :=
  Yaml.map (doc.map (fun p => (p.1, encodeEntry p.2)))

/-- Recover a substitution table from its YAML node entries. -/
def decodeVMList : List (String × Yaml) → Option (List (String × String))
  | [] => some []
  | (k, Yaml.str v) :: rest =>
    match decodeVMList rest with
    | some l => some ((k, v) :: l)
    | none => none
  | (_, Yaml.map _) :: _ => none

/-- Recover a substitution table from a YAML node. -/
def decodeVM : Yaml → Option (List (String × String))
  | Yaml.map l => decodeVMList l
  | Yaml.str _ => none

/-- Recover a transformation dict from a YAML node. -/
def decodeTransformation (y : Yaml) : Option Transformation :=
  match y with
  | Yaml.map l =>
    match yamlLookup l "value_mapping" with
    | none => some { value_mapping := none }
    | some vy =>
      match decodeVM vy with
      | some vm => some { value_mapping := some vm }
      | none => none
  | Yaml.str _ => none

/-- Recover an Entry from a YAML node. -/
def decodeEntry (y : Yaml) : Option Entry :=
  match y with
  | Yaml.map l =>
    match yamlLookup l "cdm_field" with
    | some (Yaml.str name) =>
      (match yamlLookup l "transformation" with
       | none => some { cdm_field := name, transformation := none }
       | some ty =>
         match decodeTransformation ty with
         | some t => some { cdm_field := name, transformation := some t }
         | none => none)
    | _ => none
  | Yaml.str _ => none

/-- Recover a Mapping Document from the entries of its YAML node. -/
def decodeEntriesList : List (String × Yaml) → Option Mappings
  | [] => some []
  | (k, y) :: rest =>
    match decodeEntry y with
    | some e =>
      match decodeEntriesList rest with
      | some l => some ((k, e) :: l)
      | none => none
    | none => none

/-- Recover a Mapping Document from a YAML node. -/
def decodeMappings (y : Yaml) : Option Mappings :=
  match y with
  | Yaml.map l => decodeEntriesList l
  | Yaml.str _ => none

/-- The Mapping Serializer save side, `generate_mapping_yaml` (mapApp.py lines
46-49): `yaml.dump(\x7b"mappings": column_mappings\x7d, ...)` wraps the document
under the single top-level key `mappings`. -/
def generate_mapping_yaml (doc : Mappings) : Yaml :=
  Yaml.map [("mappings", encodeMappings doc)]

/-- The Mapping Serializer load side, `load_mapping` (transformApp.py lines
48-57): parse the YAML and extract `mappings.get("mappings", \x7b\x7d)`;
anything that fails to decode degrades to the empty document. -/
def load_mapping (y : Yaml) : Mappings :=
  match y with
  | Yaml.map l =>
    match yamlLookup l "mappings" with
    | some my => (decodeMappings my).getD []
    | none => []
  | Yaml.str _ => []

/-! Helper lemmas about the engine loop. -/

/-- The loop only writes `transformed_df`: the `df` component of the state is
untouched by any number of iterations. -/
theorem foldl_stepField_df (parse : String → Option CalDate) (m : Mappings)
    (fields : List FieldDef) :
    ∀ st : EngineState, (fields.foldl (stepField parse m) st).df = st.df := by
  induction fields with
  | nil => intro st; rfl
  | cons f fs ih =>
    intro st
    have h := ih (stepField parse m st f)
    simpa [stepField] using h

/-- The loop appends, to the accumulated output, one column per field in field
order, each computed from the source DataFrame held in the state. -/
theorem foldl_stepField_out (parse : String → Option CalDate) (m : Mappings)
    (df : Table) (fields : List FieldDef) :
    ∀ acc : Table,
      (fields.foldl (stepField parse m) { df := df, transformed_df := acc }).transformed_df
        = acc ++ fields.map (fun f => (f.name, computeColumn parse df m f)) := by
  induction fields with
  | nil => intro acc; simp
  | cons f fs ih =>
    intro acc
    show (fs.foldl (stepField parse m)
        (stepField parse m { df := df, transformed_df := acc } f)).transformed_df = _
    rw [show stepField parse m { df := df, transformed_df := acc } f
          = { df := df, transformed_df := acc ++ [(f.name, computeColumn parse df m f)] }
        from rfl]
    rw [ih]
    simp

/-- Closed form of the Transform Engine: one output column per Schema Registry
field, in registry order. -/
theorem apply_transformations_eq (parse : String → Option CalDate) (df : Table)
    (m : Mappings) :
    apply_transformations parse df m
      = CDM_FIELDS.map (fun f => (f.name, computeColumn parse df m f)) := by
  unfold apply_transformations runEngine
  rw [foldl_stepField_out]
  simp

/-- The value substitution step never changes the column length. -/
theorem applyValueMapping_length (entry : Entry) (c : Column) :
    (applyValueMapping entry c).length = c.length := by
  unfold applyValueMapping
  split
  · split
    · simp
    · rfl
  · rfl

/-- When the lookup of line 80 succeeds, the column it returns is a column of
the source DataFrame. -/
theorem lookupColumn_mem (df : Table) (name : String) (c : Column)
    (h : lookupColumn df name = some c) : ∃ p ∈ df, p.2 = c := by
  unfold lookupColumn at h
  rcases Option.map_eq_some'.mp h with ⟨q, hq, hq2⟩
  exact ⟨q, List.mem_of_find?_eq_some hq, hq2⟩

/-- Every engine output column has the source DataFrame's row count, provided
the source DataFrame is rectangular. -/
theorem computeColumn_length (parse : String → Option CalDate) (df : Table)
    (m : Mappings) (field : FieldDef) (hrect : Rectangular df) :
    (computeColumn parse df m field).length = numRows df := by
  unfold computeColumn
  split
  · simp
  · next col entry hf =>
    split
    · simp
    · next colData hl =>
      have hlen : colData.length = numRows df := by
        rcases lookupColumn_mem df col colData hl with ⟨q, hq, hq2⟩
        rw [← hq2]
        exact hrect q hq
      rw [applyValueMapping_length]
      split <;> simp [hlen]

/-- Row count of a DataFrame built as one column per field. -/
theorem numRows_map_fields (g : FieldDef → String × Column) (fs : List FieldDef)
    (n : Nat) (hne : fs ≠ []) (h : ∀ f ∈ fs, (g f).2.length = n) :
    numRows (fs.map g) = n := by
  cases fs with
  | nil => exact absurd rfl hne
  | cons f rest =>
    show ((g f).2).length = n
    exact h f (List.mem_cons_self f rest)

/-- Closed pointwise form of a matched field's output column: each output cell
is a function of the source cell at the same row index. -/
theorem computeColumn_matched (parse : String → Option CalDate) (df : Table)
    (m : Mappings) (field : FieldDef) (col : String) (entry : Entry) (colData : Column)
    (hfind : findOriginalCol m field.name = some (col, entry))
    (hlook : lookupColumn df col = some colData) :
    computeColumn parse df m field = colData.map (cellStep parse field entry) := by
  simp only [computeColumn, hfind, hlook]
  have hif : (if field.data_type == "date" then colData.map (toDatetimeCell parse) else colData)
      = colData.map (fun c => if field.data_type == "date" then toDatetimeCell parse c else c) := by
    by_cases h : field.data_type = "date"
    · simp [h]
    · simp [h]
  rw [hif]
  obtain ⟨cf, tr⟩ := entry
  cases tr with
  | none => rfl
  | some t =>
    obtain ⟨vmo⟩ := t
    cases vmo with
    | none => rfl
    | some vm =>
      show ((colData.map fun c =>
          if field.data_type == "date" then toDatetimeCell parse c else c).map (mapCell vm))
        = colData.map (cellStep parse field (Entry.mk cf (some (Transformation.mk (some vm)))))
      rw [List.map_map]
      rfl

/-- First-match lookup over an association list split around the first entry
satisfying the scan predicate. -/
theorem find?_append_first {α : Type} (p : α → Bool) (l1 : List α) (a : α)
    (l2 : List α) (h1 : ∀ x ∈ l1, p x = false) (ha : p a = true) :
    List.find? p (l1 ++ a :: l2) = some a := by
  induction l1 with
  | nil => simp [List.find?, ha]
  | cons x xs ih =>
    have hx : p x = false := h1 x (List.mem_cons_self x xs)
    have ih2 := ih (fun y hy => h1 y (List.mem_cons_of_mem x hy))
    simp [List.find?, hx, ih2]

/-- The value substitution step is the identity when the Entry's transformation
dict carries no `value_mapping` key. -/
theorem applyValueMapping_no_vm (entry : Entry) (c : Column)
    (h : hasValueMapping entry = false) : applyValueMapping entry c = c := by
  obtain ⟨cf, tr⟩ := entry
  cases tr with
  | none => rfl
  | some t =>
    obtain ⟨vmo⟩ := t
    cases vmo with
    | none => rfl
    | some vm => simp [hasValueMapping] at h

/-! Helper lemmas for the serializer round trip. -/

/-- Decoding inverts encoding on substitution tables. -/
theorem decodeVM_encodeVM (vm : List (String × String)) :
    decodeVM (encodeVM vm) = some vm := by
  induction vm with
  | nil => rfl
  | cons p l ih =>
    simp only [encodeVM, decodeVM, List.map] at ih ⊢
    rw [show decodeVMList ((p.1, Yaml.str p.2) :: List.map (fun q => (q.1, Yaml.str q.2)) l)
          = match decodeVMList (List.map (fun q => (q.1, Yaml.str q.2)) l) with
            | some r => some ((p.1, p.2) :: r)
            | none => none
        from rfl]
    rw [ih]

/-- Decoding inverts encoding on Entries. -/
theorem decodeEntry_encodeEntry (e : Entry) :
    decodeEntry (encodeEntry e) = some e := by
  obtain ⟨name, tr⟩ := e
  cases tr with
  | none => rfl
  | some t =>
    obtain ⟨vmOpt⟩ := t
    cases vmOpt with
    | none => rfl
    | some vm =>
      have ht : decodeTransformation (Yaml.map [("value_mapping", encodeVM vm)])
          = some (Transformation.mk (some vm)) := by
        show (match decodeVM (encodeVM vm) with
              | some vm2 => some (Transformation.mk (some vm2))
              | none => (none : Option Transformation))
            = some (Transformation.mk (some vm))
        rw [decodeVM_encodeVM]
      show (match decodeTransformation (Yaml.map [("value_mapping", encodeVM vm)]) with
            | some t => some (Entry.mk name (some t))
            | none => (none : Option Entry))
          = some (Entry.mk name (some (Transformation.mk (some vm))))
      rw [ht]

/-- Decoding inverts encoding on whole Mapping Documents. -/
theorem decodeMappings_encodeMappings (doc : Mappings) :
    decodeMappings (encodeMappings doc) = some doc := by
  induction doc with
  | nil => rfl
  | cons p l ih =>
    simp only [encodeMappings, decodeMappings, List.map] at ih ⊢
    rw [show decodeEntriesList ((p.1, encodeEntry p.2) :: List.map (fun q => (q.1, encodeEntry q.2)) l)
          = match decodeEntry (encodeEntry p.2) with
            | some e =>
              match decodeEntriesList (List.map (fun q => (q.1, encodeEntry q.2)) l) with
              | some r => some ((p.1, e) :: r)
              | none => none
            | none => none
        from rfl]
    rw [decodeEntry_encodeEntry, ih]

/-! Claim theorems. -/

/-- C1: for every source table and every mapping document, the output table of
the Transform Engine `apply_transformations` has exactly 17 columns, named
exactly the 17 Field Definition names of the Schema Registry `CDM_FIELDS`, in
registry order, regardless of the mapping document's content. -/
theorem c1_seventeen_columns_in_registry_order (parse : String → Option CalDate)
    (df : Table) (m : Mappings) :
    (apply_transformations parse df m).map (fun p => p.1)
        = ["Patient ID", "Primary Intervention", "Date of Surgery", "Operation Side",
           "Previous Intervention", "Discharge Date", "Readmission Date",
           "Treating Specialty", "Reoperation Date", "Reoperation Specialty",
           "Culture Collection Date", "Sample number culture collection",
           "Breeding Material", "Result", "Antibiotic Code",
           "Prescription Start Date", "Prescription End Date"]
      ∧ (apply_transformations parse df m).map (fun p => p.1)
          = CDM_FIELDS.map (fun f => f.name)
      ∧ (apply_transformations parse df m).length = 17 := by
  rw [apply_transformations_eq]
  exact ⟨rfl, rfl, rfl⟩

/-- C2: for every source table and every mapping document, the output table of
`apply_transformations` has the same number of rows as the source table, and
the engine is strictly columnar and order-preserving per row index — each
matched field's output column is the pointwise image of its source column. -/
theorem c2_row_count_preserved (parse : String → Option CalDate) (df : Table)
    (m : Mappings) (hrect : Rectangular df) :
    numRows (apply_transformations parse df m) = numRows df
      ∧ (∀ p ∈ apply_transformations parse df m, p.2.length = numRows df)
      ∧ (∀ field col entry colData,
          findOriginalCol m field.name = some (col, entry) →
          lookupColumn df col = some colData →
          computeColumn parse df m field = colData.map (cellStep parse field entry)) := by
  refine ⟨?h1, ?h2, ?h3⟩
  case h1 =>
    rw [apply_transformations_eq]
    refine numRows_map_fields _ _ _ (by simp [CDM_FIELDS]) ?hall
    intro f hf
    exact computeColumn_length parse df m f hrect
  case h2 =>
    intro p hp
    rw [apply_transformations_eq] at hp
    rcases List.mem_map.mp hp with ⟨f, hf, rfl⟩
    exact computeColumn_length parse df m f hrect
  case h3 =>
    intro field col entry colData hfind hlook
    exact computeColumn_matched parse df m field col entry colData hfind hlook

/-- Witness for C2: a concrete two-row, two-column rectangular table and the
empty mapping document keep the row count 2. -/
theorem c2_row_count_preserved_witness :
    Rectangular [("a", [Cell.val "x", Cell.val "y"]), ("b", [Cell.missing, Cell.val "z"])]
      ∧ numRows (apply_transformations parseISODate
          [("a", [Cell.val "x", Cell.val "y"]), ("b", [Cell.missing, Cell.val "z"])] []) = 2 := by
  refine ⟨by decide, ?hn⟩
  have h := c2_row_count_preserved parseISODate
    [("a", [Cell.val "x", Cell.val "y"]), ("b", [Cell.missing, Cell.val "z"])] [] (by decide)
  exact h.1

/-- C8: the Mapping Serializer round trip — `generate_mapping_yaml` wraps the
document under the single top-level key `mappings` and `load_mapping` extracts
that key, so loading a saved document returns a document equal to the original
(value_mapping keys and values are plain strings by type). -/
theorem c8_save_load_round_trip (doc : Mappings) :
    load_mapping (generate_mapping_yaml doc) = doc := by
  show (decodeMappings (encodeMappings doc)).getD [] = doc
  rw [decodeMappings_encodeMappings]
  rfl

/-- C9: the Transform Engine does not modify its source table — the source
DataFrame threaded through the per-field loop state is returned unchanged with
the same columns, rows and cell values, while the output DataFrame is built
afresh from the empty table. -/
theorem c9_source_table_unchanged (parse : String → Option CalDate) (df : Table)
    (m : Mappings) :
    (runEngine parse df m).df = df
      ∧ apply_transformations parse df m = (runEngine parse df m).transformed_df :=
  ⟨foldl_stepField_df parse m CDM_FIELDS { df := df, transformed_df := [] }, rfl⟩

/-- C3: for a CDM field of `data_type` date whose mapped source column exists
(with no value substitution declared on the Entry), the field's output column
is the date-reformat of the source column: every cell value the parser accepts
is reformatted to dd/mm/yyyy, every cell value the parser rejects is coerced to
the missing marker for that cell only. The engine is a total function, so a
per-cell parse failure never aborts the run and the remaining fields are still
processed into the same output table. -/
theorem c3_date_cells_reformatted_or_missing (parse : String → Option CalDate)
    (df : Table) (m : Mappings) (field : FieldDef) (col : String) (entry : Entry)
    (colData : Column)
    (hmem : field ∈ CDM_FIELDS)
    (hdate : field.data_type = "date")
    (hfind : findOriginalCol m field.name = some (col, entry))
    (hlook : lookupColumn df col = some colData)
    (hnovm : hasValueMapping entry = false) :
    (field.name, colData.map (toDatetimeCell parse)) ∈ apply_transformations parse df m
      ∧ (∀ s d, parse s = some d →
          toDatetimeCell parse (Cell.val s) = Cell.val (formatDDMMYYYY d))
      ∧ (∀ s, parse s = none → toDatetimeCell parse (Cell.val s) = Cell.missing) := by
  have hcc : computeColumn parse df m field = colData.map (toDatetimeCell parse) := by
    simp only [computeColumn, hfind, hlook]
    rw [if_pos (by simp [hdate])]
    exact applyValueMapping_no_vm entry _ hnovm
  refine ⟨?hm, ?hok, ?hfail⟩
  case hm =>
    rw [apply_transformations_eq, ← hcc]
    exact List.mem_map.mpr ⟨field, hmem, rfl⟩
  case hok =>
    intro s d hsd
    simp [toDatetimeCell, hsd]
  case hfail =>
    intro s hs
    simp [toDatetimeCell, hs]

/-- Witness for C3: the Date of Surgery field mapped from a two-cell source
column, where "2024-01-15" reformats to "15/01/2024" and "not-a-date" becomes
the missing marker. -/
theorem c3_date_cells_reformatted_or_missing_witness :
    ("Date of Surgery",
        [Cell.val "2024-01-15", Cell.val "not-a-date"].map (toDatetimeCell parseISODate))
      ∈ apply_transformations parseISODate
          [("surgdate", [Cell.val "2024-01-15", Cell.val "not-a-date"])]
          [("surgdate", Entry.mk "Date of Surgery" none)]
      ∧ [Cell.val "2024-01-15", Cell.val "not-a-date"].map (toDatetimeCell parseISODate)
          = [Cell.val "15/01/2024", Cell.missing] := by
  refine ⟨?hm, by decide⟩
  have h := c3_date_cells_reformatted_or_missing parseISODate
    [("surgdate", [Cell.val "2024-01-15", Cell.val "not-a-date"])]
    [("surgdate", Entry.mk "Date of Surgery" none)]
    (FieldDef.mk "3A" "Date of Surgery" "date" (ValuesSpec.hint "dd/mm/yyyy") none
      "Date the primary hip or knee replacement was performed.")
    "surgdate" (Entry.mk "Date of Surgery" none)
    [Cell.val "2024-01-15", Cell.val "not-a-date"]
    (by decide) rfl rfl rfl rfl
  exact h.1

/-- C4: for a CDM field (not date-typed, so the working column is the source
column itself) whose Entry carries a `value_mapping` and whose mapped source
column exists: each cell whose value occurs as a key of the `value_mapping` is
replaced by its image, and each cell whose value does not occur as a key
retains its original value unchanged; an unmapped value is never an error. -/
theorem c4_value_substitution_best_effort (parse : String → Option CalDate)
    (df : Table) (m : Mappings) (field : FieldDef) (col : String) (cf : String)
    (vm : List (String × String)) (colData : Column)
    (hmem : field ∈ CDM_FIELDS)
    (hnotdate : field.data_type ≠ "date")
    (hfind : findOriginalCol m field.name
        = some (col, Entry.mk cf (some (Transformation.mk (some vm)))))
    (hlook : lookupColumn df col = some colData) :
    (field.name, colData.map (mapCell vm)) ∈ apply_transformations parse df m
      ∧ (∀ s t, lookupStr vm s = some t → mapCell vm (Cell.val s) = Cell.val t)
      ∧ (∀ s, lookupStr vm s = none → mapCell vm (Cell.val s) = Cell.val s) := by
  have hcc : computeColumn parse df m field = colData.map (mapCell vm) := by
    simp only [computeColumn, hfind, hlook]
    rw [if_neg (by simp [hnotdate])]
    rfl
  refine ⟨?hm, ?hhit, ?hpass⟩
  case hm =>
    rw [apply_transformations_eq, ← hcc]
    exact List.mem_map.mpr ⟨field, hmem, rfl⟩
  case hhit =>
    intro s t hst
    simp [mapCell, hst]
  case hpass =>
    intro s hs
    simp [mapCell, hs]

/-- Witness for C4: the Operation Side field with `value_mapping = [("M", "male")]`
maps the source cell "M" to "male" and passes the unmapped cell "F" through
unchanged. -/
theorem c4_value_substitution_best_effort_witness :
    ("Operation Side", [Cell.val "M", Cell.val "F"].map (mapCell [("M", "male")]))
      ∈ apply_transformations parseISODate
          [("side", [Cell.val "M", Cell.val "F"])]
          [("side", Entry.mk "Operation Side"
              (some (Transformation.mk (some [("M", "male")]))))]
      ∧ [Cell.val "M", Cell.val "F"].map (mapCell [("M", "male")])
          = [Cell.val "male", Cell.val "F"] := by
  refine ⟨?hm, by decide⟩
  have h := c4_value_substitution_best_effort parseISODate
    [("side", [Cell.val "M", Cell.val "F"])]
    [("side", Entry.mk "Operation Side"
        (some (Transformation.mk (some [("M", "male")]))))]
    (FieldDef.mk "4A" "Operation Side" "categorical" (ValuesSpec.allowed ["left", "right"]) none
      "Was the surgery performed in the left or right joint?")
    "side" "Operation Side" [("M", "male")] [Cell.val "M", Cell.val "F"]
    (by decide) (by decide) rfl rfl
  exact h.1

/-- C5: for a CDM field with no matching Entry in the mapping document, or
whose matching Entry names a source column absent from the source table, the
engine emits a column of one missing marker per source row; the engine is a
total function, so it never raises for a missing mapping entry. -/
theorem c5_unmatched_field_all_missing (parse : String → Option CalDate)
    (df : Table) (m : Mappings) (field : FieldDef)
    (hmem : field ∈ CDM_FIELDS)
    (hmiss : ∀ col entry, findOriginalCol m field.name = some (col, entry) →
        lookupColumn df col = none) :
    (field.name, List.replicate (numRows df) Cell.missing)
      ∈ apply_transformations parse df m := by
  have hcc : computeColumn parse df m field
      = List.replicate (numRows df) Cell.missing := by
    unfold computeColumn
    split
    · rfl
    · next col entry hf =>
      rw [hmiss col entry hf]
  rw [apply_transformations_eq, ← hcc]
  exact List.mem_map.mpr ⟨field, hmem, rfl⟩

/-- Witness for C5: with an empty mapping document and a two-row source table,
the Patient ID output column is two missing markers. -/
theorem c5_unmatched_field_all_missing_witness :
    ("Patient ID",
        List.replicate (numRows [("age", [Cell.val "1", Cell.val "2"])]) Cell.missing)
      ∈ apply_transformations parseISODate [("age", [Cell.val "1", Cell.val "2"])] []
      ∧ List.replicate (numRows [("age", [Cell.val "1", Cell.val "2"])]) Cell.missing
          = [Cell.missing, Cell.missing] := by
  refine ⟨?hm, by decide⟩
  exact c5_unmatched_field_all_missing parseISODate
    [("age", [Cell.val "1", Cell.val "2"])] []
    (FieldDef.mk "1A" "Patient ID" "uuid" (ValuesSpec.hint "") none
      "A unique patient identification number.")
    (by decide) (by intro col entry h; simp [findOriginalCol] at h)

/-- C6: the Entry used by the engine is found by scanning the mapping document
in document iteration order and taking the first Entry whose `cdm_field`
equals the field's name; when several source columns map to the same CDM
field, the first matching Entry wins and the later ones are ignored for that
field (the field's output column does not depend on them). -/
theorem c6_first_match_wins (parse : String → Option CalDate) (df : Table)
    (m1 : Mappings) (col : String) (entry : Entry) (m2 m2' : Mappings)
    (field : FieldDef)
    (hentry : entry.cdm_field = field.name)
    (hnone : ∀ p ∈ m1, p.2.cdm_field ≠ field.name) :
    findOriginalCol (m1 ++ (col, entry) :: m2) field.name = some (col, entry)
      ∧ computeColumn parse df (m1 ++ (col, entry) :: m2) field
          = computeColumn parse df (m1 ++ (col, entry) :: m2') field := by
  have hfind : ∀ l2 : Mappings,
      findOriginalCol (m1 ++ (col, entry) :: l2) field.name = some (col, entry) := by
    intro l2
    unfold findOriginalCol
    apply find?_append_first
    · intro x hx
      exact beq_eq_false_iff_ne.mpr (hnone x hx)
    · exact beq_iff_eq.mpr hentry
  refine ⟨hfind m2, ?heq⟩
  unfold computeColumn
  rw [hfind m2, hfind m2']

/-- Witness for C6: two source columns both map to Patient ID; the earlier one
in document order (colB) wins, and dropping the later duplicate (colC) does not
change the Patient ID output column. -/
theorem c6_first_match_wins_witness :
    findOriginalCol
        ([("colA", Entry.mk "Operation Side" none)]
          ++ ("colB", Entry.mk "Patient ID" none)
            :: [("colC", Entry.mk "Patient ID" none)]) "Patient ID"
      = some ("colB", Entry.mk "Patient ID" none)
      ∧ computeColumn parseISODate [("colB", [Cell.val "p1"])]
          ([("colA", Entry.mk "Operation Side" none)]
            ++ ("colB", Entry.mk "Patient ID" none)
              :: [("colC", Entry.mk "Patient ID" none)])
          (FieldDef.mk "1A" "Patient ID" "uuid" (ValuesSpec.hint "") none
            "A unique patient identification number.")
        = computeColumn parseISODate [("colB", [Cell.val "p1"])]
            ([("colA", Entry.mk "Operation Side" none)]
              ++ ("colB", Entry.mk "Patient ID" none) :: [])
            (FieldDef.mk "1A" "Patient ID" "uuid" (ValuesSpec.hint "") none
              "A unique patient identification number.") :=
  c6_first_match_wins parseISODate [("colB", [Cell.val "p1"])]
    [("colA", Entry.mk "Operation Side" none)] "colB" (Entry.mk "Patient ID" none)
    [("colC", Entry.mk "Patient ID" none)] []
    (FieldDef.mk "1A" "Patient ID" "uuid" (ValuesSpec.hint "") none
      "A unique patient identification number.")
    rfl (by decide)

/-- C7 counterexample: a spreadsheet with three sheets ingested with no sheet
selector does not yield an error or an explicit request for a sheet choice —
`ingest_file` falls back to `sheet_name=0` and silently returns the first
sheet, and `read_data` does the same with the pandas default. -/
theorem c7_counterexample_silent_default :
    ingest_file_excel
        [("Sheet1", [("a", [Cell.val "1"])]),
         ("Sheet2", [("b", [Cell.val "2"])]),
         ("Sheet3", [("c", [Cell.val "3"])])] none
      = some [("a", [Cell.val "1"])]
      ∧ ingest_file_excel
          [("Sheet1", [("a", [Cell.val "1"])]),
           ("Sheet2", [("b", [Cell.val "2"])]),
           ("Sheet3", [("c", [Cell.val "3"])])] none ≠ none
      ∧ read_data_excel
          [("Sheet1", [("a", [Cell.val "1"])]),
           ("Sheet2", [("b", [Cell.val "2"])]),
           ("Sheet3", [("c", [Cell.val "3"])])]
        = some [("a", [Cell.val "1"])] := by
  decide

/-- C7 amended: when a spreadsheet with sheets is ingested and no sheet
selector is supplied, ingestion silently defaults to the first sheet (sheet
index 0) in both `ingest_file` and `read_data`; no error and no request for a
choice is produced at this level. -/
theorem c7_no_selector_defaults_to_first_sheet (sheets : List (String × Table))
    (s0 : String × Table) (rest : List (String × Table)) (h : sheets = s0 :: rest) :
    ingest_file_excel sheets none = some s0.2
      ∧ read_data_excel sheets = some s0.2 := by
  subst h
  exact ⟨rfl, rfl⟩

/-- Witness for the amended C7: a two-sheet workbook with no selector yields
the first sheet from both ingestion functions. -/
theorem c7_no_selector_defaults_to_first_sheet_witness :
    ingest_file_excel
        [("S1", [("a", [Cell.val "1"])]), ("S2", [("b", [Cell.val "2"])])] none
      = some [("a", [Cell.val "1"])]
      ∧ read_data_excel
          [("S1", [("a", [Cell.val "1"])]), ("S2", [("b", [Cell.val "2"])])]
        = some [("a", [Cell.val "1"])] :=
  c7_no_selector_defaults_to_first_sheet
    [("S1", [("a", [Cell.val "1"])]), ("S2", [("b", [Cell.val "2"])])]
    ("S1", [("a", [Cell.val "1"])])
    [("S2", [("b", [Cell.val "2"])])] rfl

/-- C10: for a CDM field with a `value_mapping`, a source cell that is missing
stays the missing marker in the output column — the substitution
(`map` then `fillna` with the original) never turns a missing cell into a
mapped or non-missing value. -/
theorem c10_missing_cell_stays_missing (parse : String → Option CalDate)
    (df : Table) (m : Mappings) (field : FieldDef) (col cf : String)
    (vm : List (String × String)) (colData : Column) (i : Nat)
    (hmem : field ∈ CDM_FIELDS)
    (hfind : findOriginalCol m field.name
        = some (col, Entry.mk cf (some (Transformation.mk (some vm)))))
    (hlook : lookupColumn df col = some colData)
    (hcell : colData[i]? = some Cell.missing) :
    (computeColumn parse df m field)[i]? = some Cell.missing
      ∧ (field.name, computeColumn parse df m field) ∈ apply_transformations parse df m
      ∧ mapCell vm Cell.missing = Cell.missing := by
  have hcc := computeColumn_matched parse df m field col
    (Entry.mk cf (some (Transformation.mk (some vm)))) colData hfind hlook
  refine ⟨?hmiss, ?hm, rfl⟩
  case hmiss =>
    rw [hcc, List.getElem?_map, hcell]
    simp [cellStep, toDatetimeCell, mapCell]
  case hm =>
    rw [apply_transformations_eq]
    exact List.mem_map.mpr ⟨field, hmem, rfl⟩

/-- Witness for C10: a missing cell in the source column of the Operation Side
field with `value_mapping = [("M", "male")]` stays missing at row index 0. -/
theorem c10_missing_cell_stays_missing_witness :
    (computeColumn parseISODate [("side", [Cell.missing, Cell.val "M"])]
        [("side", Entry.mk "Operation Side"
            (some (Transformation.mk (some [("M", "male")]))))]
        (FieldDef.mk "4A" "Operation Side" "categorical"
          (ValuesSpec.allowed ["left", "right"]) none
          "Was the surgery performed in the left or right joint?"))[0]?
      = some Cell.missing
      ∧ mapCell [("M", "male")] Cell.missing = Cell.missing := by
  have h := c10_missing_cell_stays_missing parseISODate
    [("side", [Cell.missing, Cell.val "M"])]
    [("side", Entry.mk "Operation Side"
        (some (Transformation.mk (some [("M", "male")]))))]
    (FieldDef.mk "4A" "Operation Side" "categorical"
      (ValuesSpec.allowed ["left", "right"]) none
      "Was the surgery performed in the left or right joint?")
    "side" "Operation Side" [("M", "male")] [Cell.missing, Cell.val "M"] 0
    (by decide) rfl rfl rfl
  exact ⟨h.1, h.2.2⟩

end RIVM
